import Mathlib

/-!
Shallow embedding of the car-arbitrage scraper (`car_scraper.py`):
the model catalog, the geocoder, the listing constructor (`CarListing.__init__`),
the arbitrage predicate (`CarListing.is_profitable`), the dictionary export
(`CarListing.to_dict`) and the final URL de-duplication pass of
`CarArbitrageFinder.search_all`.

Conventions of the embedding:
* Python `int` becomes `Nat` where the source only ever produces non-negative
  values (prices come from `extract_price`, which extracts a digit run), and
  `Int` where subtraction may go negative (`net_profit`, `uk_saving`, `ni_margin`).
* Python `float` becomes `ℚ`; the haversine distance uses transcendental
  functions, so the constructor is parametrized by the distance function `hav`.
* Python string truthiness (`if s:`) is the test `s ≠ ""`; `dict.get(k, d)`
  becomes an `Option`-valued lookup plus a defaulting accessor.
* Python `lower()` is modelled on the ASCII range (`Char.toLower`), matching
  every string constant appearing in the source.
-/

/-- Substring test at the front: `isPrefixOf` over character lists. -/
def strPrefix (p t : List Char) : Bool := p.isPrefixOf t

/-- Embedding of Python's `needle in hay` substring operator on character
lists: `containsAux p t` is true iff `p` occurs contiguously in `t`. -/
def containsAux (p : List Char) : List Char → Bool
  | [] => p.isEmpty
  | c :: t => strPrefix p (c :: t) || containsAux p t

/-- Embedding of Python's `needle in hay` on strings. -/
def pyContains (hay needle : String) : Bool := containsAux needle.data hay.data

/-- ASCII lower-casing of a string, character by character (Python `str.lower`
restricted to the ASCII range, which covers every keyword in the source). -/
def lowerStr (s : String) : String := ⟨s.data.map Char.toLower⟩

/-- Characters stripped by Python's `str.strip()` (ASCII whitespace). -/
def pySpaceChars : List Char := [' ', '\t', '\n', '\r', '\x0b', '\x0c']

/-- Whitespace test used by the `strip()` embedding. -/
def isPySpace (c : Char) : Bool := pySpaceChars.contains c

/-- Embedding of Python's `str.strip()`. -/
def pyStrip (s : String) : String :=
  ⟨((s.data.dropWhile isPySpace).reverse.dropWhile isPySpace).reverse⟩

/-- Python truthiness of an optional integer (`None` and `0` are falsy). -/
def optTruthy (o : Option Nat) : Bool :=
  match o with
  | none => false
  | some v => v != 0

/-- Configuration constant `LIVERPOOL_COORDS` from the source. -/
def LIVERPOOL_COORDS : ℚ × ℚ := (53.4084, -2.9916)

/-- Configuration constant `MAX_DISTANCE_MILES = 300` from the source. -/
def MAX_DISTANCE_MILES : ℚ := 300

/-- Configuration constant `COSTS_PER_CAR = 650` from the source
(ferry, fuel, insurance, admin). -/
def COSTS_PER_CAR : Nat := 650

/-- One entry of the `TARGET_CARS` catalog. Keys that are optional in the
Python dict (`year_min`, `year_max`, `exclude_keywords`) are `Option`/defaulted. -/
structure CarConfig where
  search_terms : List String
  make : String
  model : String
  max_price : Nat
  ni_markup : Nat
  min_profit : Nat
  avg_uk_price : Nat
  avg_ni_price : Nat
  year_min : Option Nat := none
  year_max : Option Nat := none
  exclude_keywords : List String := []
deriving DecidableEq

/-- The `TARGET_CARS` dict of the source as an ordered association list. -/
def TARGET_CARS_LIST : List (String × CarConfig) :=
  [("peugeot_306_dturbo",
    { search_terms := ["Peugeot 306 D-Turbo", "Peugeot 306 DTurbo", "306 D Turbo", "306 Diesel"],
      make := "Peugeot", model := "306",
      max_price := 5000, ni_markup := 2700, min_profit := 1000,
      avg_uk_price := 3500, avg_ni_price := 6200 }),
   ("lexus_is200",
    { search_terms := ["Lexus IS200", "Lexus IS-200", "IS200 Sport", "IS200 manual"],
      make := "Lexus", model := "IS",
      max_price := 6000, ni_markup := 2700, min_profit := 1000,
      avg_uk_price := 3000, avg_ni_price := 5700 }),
   ("bmw_e46_330",
    { search_terms := ["BMW 330i", "BMW 330ci", "E46 330", "330i Sport", "330ci M Sport"],
      make := "BMW", model := "3 Series",
      max_price := 8000, ni_markup := 2800, min_profit := 1000,
      avg_uk_price := 5000, avg_ni_price := 7800 }),
   ("honda_civic_ep3_type_r",
    { search_terms := ["Honda Civic Type R EP3", "Civic EP3 Type R", "EP3 Type R", "Honda Civic Type R"],
      make := "Honda", model := "Civic",
      max_price := 12000, ni_markup := 3500, min_profit := 1000,
      avg_uk_price := 7500, avg_ni_price := 11000,
      year_min := some 2001, year_max := some 2005,
      exclude_keywords := ["fn2", "fk2", "fk8", "fl5", "2006", "2007", "2008", "2009", "2010", "2011"] }),
   ("bmw_e60_530d",
    { search_terms := ["BMW 530d", "E60 530d", "530d Sport", "BMW 530 diesel"],
      make := "BMW", model := "5 Series",
      max_price := 7000, ni_markup := 2700, min_profit := 1000,
      avg_uk_price := 4500, avg_ni_price := 7200 }),
   ("bmw_e60_535d",
    { search_terms := ["BMW 535d", "E60 535d", "535d M-Sport", "BMW 535 diesel"],
      make := "BMW", model := "5 Series",
      max_price := 9000, ni_markup := 2800, min_profit := 1000,
      avg_uk_price := 5500, avg_ni_price := 8300 }),
   ("bmw_f30_330d",
    { search_terms := ["BMW 330d", "F30 330d", "330d Sport", "330d M-Sport"],
      make := "BMW", model := "3 Series",
      max_price := 18000, ni_markup := 3000, min_profit := 1000,
      avg_uk_price := 12000, avg_ni_price := 15000 }),
   ("bmw_f30_335d",
    { search_terms := ["BMW 335d", "F30 335d", "335d M-Sport", "335d xDrive"],
      make := "BMW", model := "3 Series",
      max_price := 22000, ni_markup := 3500, min_profit := 1000,
      avg_uk_price := 15000, avg_ni_price := 18500 })]

/-- Embedding of `TARGET_CARS.get(key)`: ordered-dict lookup by model key. -/
def TARGET_CARS (k : String) : Option CarConfig := TARGET_CARS_LIST.lookup k

/-- The `MODEL_IMAGES` fallback-image dict of the source. -/
def MODEL_IMAGES_LIST : List (String × String) :=
  [("peugeot_306_dturbo", "https://upload.wikimedia.org/wikipedia/commons/thumb/5/5b/Peugeot_306_front_20080822.jpg/640px-Peugeot_306_front_20080822.jpg"),
   ("lexus_is200", "https://upload.wikimedia.org/wikipedia/commons/thumb/8/8e/1999-2005_Lexus_IS_200_%28GXE10R%29_sedan_01.jpg/640px-1999-2005_Lexus_IS_200_%28GXE10R%29_sedan_01.jpg"),
   ("bmw_e46_330", "https://upload.wikimedia.org/wikipedia/commons/thumb/a/a5/BMW_E46_Coup%C3%A9_front_20080111.jpg/640px-BMW_E46_Coup%C3%A9_front_20080111.jpg"),
   ("honda_civic_ep3_type_r", "https://upload.wikimedia.org/wikipedia/commons/thumb/8/8c/Honda_Civic_Type_R_%28EP3%29.jpg/640px-Honda_Civic_Type_R_%28EP3%29.jpg"),
   ("bmw_e60_530d", "https://upload.wikimedia.org/wikipedia/commons/thumb/a/a7/BMW_E60_front_20080417.jpg/640px-BMW_E60_front_20080417.jpg"),
   ("bmw_e60_535d", "https://upload.wikimedia.org/wikipedia/commons/thumb/a/a7/BMW_E60_front_20080417.jpg/640px-BMW_E60_front_20080417.jpg"),
   ("bmw_f30_330d", "https://upload.wikimedia.org/wikipedia/commons/thumb/0/06/BMW_F30_320d_Sportline_Mineralgrau.jpg/640px-BMW_F30_320d_Sportline_Mineralgrau.jpg"),
   ("bmw_f30_335d", "https://upload.wikimedia.org/wikipedia/commons/thumb/0/06/BMW_F30_320d_Sportline_Mineralgrau.jpg/640px-BMW_F30_320d_Sportline_Mineralgrau.jpg")]

/-- Default-valued accessor `cfg.get('ni_markup', 0)` on a possibly-missing config. -/
def cfgMarkup (o : Option CarConfig) : Nat :=
  match o with
  | some c => c.ni_markup
  | none => 0

/-- Default-valued accessor `cfg.get('max_price', 999999)`. -/
def cfgMaxPrice (o : Option CarConfig) : Nat :=
  match o with
  | some c => c.max_price
  | none => 999999

/-- Default-valued accessor `cfg.get('min_profit', 0)`. -/
def cfgMinProfit (o : Option CarConfig) : Nat :=
  match o with
  | some c => c.min_profit
  | none => 0

/-- Default-valued accessor `cfg.get('avg_uk_price', 0)`. -/
def cfgAvgUk (o : Option CarConfig) : Nat :=
  match o with
  | some c => c.avg_uk_price
  | none => 0

/-- Default-valued accessor `cfg.get('avg_ni_price', 0)`. -/
def cfgAvgNi (o : Option CarConfig) : Nat :=
  match o with
  | some c => c.avg_ni_price
  | none => 0

/-- Default-valued accessor `cfg.get('exclude_keywords', [])`. -/
def cfgExcludes (o : Option CarConfig) : List String :=
  match o with
  | some c => c.exclude_keywords
  | none => []

/-- Accessor `cfg.get('year_min')` (None when missing). -/
def cfgYearMin (o : Option CarConfig) : Option Nat :=
  match o with
  | some c => c.year_min
  | none => none

/-- Accessor `cfg.get('year_max')` (None when missing). -/
def cfgYearMax (o : Option CarConfig) : Option Nat :=
  match o with
  | some c => c.year_max
  | none => none

/-- The ordered city table of `geocode_location`. -/
def LOCATIONS : List (String × ℚ × ℚ) :=
  [("manchester", 53.4808, -2.2426),
   ("liverpool", 53.4084, -2.9916),
   ("chester", 53.1908, -2.8908),
   ("warrington", 53.3900, -2.5970),
   ("preston", 53.7632, -2.7031),
   ("blackpool", 53.8175, -3.0357),
   ("bolton", 53.5768, -2.4282),
   ("wigan", 53.5450, -2.6318),
   ("southport", 53.6472, -3.0054),
   ("blackburn", 53.7480, -2.4821),
   ("burnley", 53.7895, -2.2482),
   ("lancaster", 54.0466, -2.8007),
   ("crewe", 53.0979, -2.4416),
   ("stoke", 53.0027, -2.1794),
   ("leeds", 53.8008, -1.5491),
   ("sheffield", 53.3811, -1.4701),
   ("york", 53.9600, -1.0873),
   ("bradford", 53.7960, -1.7594),
   ("huddersfield", 53.6458, -1.7850),
   ("birmingham", 52.4862, -1.8904),
   ("nottingham", 52.9548, -1.1581),
   ("leicester", 52.6369, -1.1398),
   ("derby", 52.9225, -1.4746),
   ("coventry", 52.4068, -1.5197),
   ("wolverhampton", 52.5867, -2.1290),
   ("cardiff", 51.4816, -3.1791),
   ("swansea", 51.6214, -3.9436),
   ("wrexham", 53.0462, -2.9930),
   ("newcastle", 54.9783, -1.6178),
   ("carlisle", 54.8951, -2.9382),
   ("london", 51.5074, -0.1278),
   ("bristol", 51.4545, -2.5879),
   ("oxford", 51.7520, -1.2577),
   ("cambridge", 52.2053, 0.1218),
   ("norwich", 52.6309, 1.2974),
   ("southampton", 50.9097, -1.4044),
   ("portsmouth", 50.8198, -1.0880),
   ("brighton", 50.8225, -0.1372),
   ("exeter", 50.7184, -3.5339),
   ("plymouth", 50.3755, -4.1427),
   ("hull", 53.7676, -0.3274),
   ("middlesbrough", 54.5742, -1.2350),
   ("sunderland", 54.9069, -1.3838),
   ("doncaster", 53.5228, -1.1285),
   ("wakefield", 53.6833, -1.4977),
   ("harrogate", 53.9921, -1.5418)]

/-- Embedding of `geocode_location`: lower-case and strip the input, return the
coordinates of the first city whose name occurs in it, else the Liverpool
default. -/
def geocode_location (location : String) : ℚ × ℚ :=
  let ll := pyStrip (lowerStr location)
  match LOCATIONS.find? (fun e => pyContains ll e.1) with
  | some e => e.2
  | none => LIVERPOOL_COORDS

/-- The raw `data` dict passed to `CarListing.__init__`, with the source's
`data.get(..., default)` defaults baked in as field defaults. -/
structure RawData where
  model_type : String := ""
  title : String := ""
  price : Nat := 0
  location : String := ""
  coords : ℚ × ℚ := LIVERPOOL_COORDS
  url : String := ""
  year : String := ""
  mileage : String := ""
  source : String := ""
  image : String := ""
deriving DecidableEq

/-- An evaluated listing: the fields stored on a `CarListing` object after
`__init__` has run. -/
structure CarListing where
  model_type : String
  title : String
  price : Nat
  location : String
  coords : ℚ × ℚ
  url : String
  year : String
  mileage : String
  source : String
  image : String
  ni_markup : Nat
  expected_ni_price : Nat
  gross_profit : Nat
  net_profit : Int
  profit_margin : ℚ
  avg_uk_price : Nat
  avg_ni_price : Nat
  uk_saving : Int
  ni_margin : Int
  distance : ℚ
deriving DecidableEq

/-- Embedding of `CarListing.__init__`. The haversine distance is a float
computation over `sin`, `cos`, `asin` and `sqrt`, so it enters as the
parameter `hav`; everything else follows the constructor line by line. -/
def mkCarListing (hav : ℚ × ℚ → ℚ × ℚ → ℚ) (d : RawData) : CarListing :=
  let cfg := TARGET_CARS d.model_type
  { model_type := d.model_type
    title := d.title
    price := d.price
    location := d.location
    coords := d.coords
    url := d.url
    year := d.year
    mileage := d.mileage
    source := d.source
    image := if d.image ≠ "" then d.image else (MODEL_IMAGES_LIST.lookup d.model_type).getD ""
    ni_markup := cfgMarkup cfg
    expected_ni_price := d.price + cfgMarkup cfg
    gross_profit := cfgMarkup cfg
    net_profit := (cfgMarkup cfg : Int) - (COSTS_PER_CAR : Int)
    profit_margin :=
      if 0 < d.price then
        (((cfgMarkup cfg : Int) - (COSTS_PER_CAR : Int) : Int) : ℚ) / (d.price : ℚ) * 100
      else 0
    avg_uk_price := cfgAvgUk cfg
    avg_ni_price := cfgAvgNi cfg
    uk_saving := (cfgAvgUk cfg : Int) - (d.price : Int)
    ni_margin := (cfgAvgNi cfg : Int) - ((d.price + cfgMarkup cfg : Nat) : Int)
    distance := hav LIVERPOOL_COORDS d.coords }

/-- The `wanted_keywords` list of `is_profitable` (buy-request posts). -/
def wantedKeywords : List String :=
  ["wanted", "looking for", "wtb", "want to buy", "searching for", "iso"]

/-- The `estate_keywords` list of `is_profitable` (body-style exclusions). -/
def estateKeywords : List String :=
  ["touring", "estate", "tourer", "avant", "sportback"]

/-- Loop over `wanted_keywords`: does any occur in the lowered title? -/
def wantedHit (title : String) : Bool :=
  wantedKeywords.any (fun kw => pyContains (lowerStr title) kw)

/-- Loop over `estate_keywords`: does any occur in the lowered title? -/
def estateHit (title : String) : Bool :=
  estateKeywords.any (fun kw => pyContains (lowerStr title) kw)

/-- Loop over the config's `exclude_keywords` (lower-cased before the test). -/
def excludeHit (cfg : Option CarConfig) (title : String) : Bool :=
  (cfgExcludes cfg).any (fun kw => pyContains (lowerStr title) (lowerStr kw))

/-- Try to match the regex `(19|20)\d\d` at the head of the character list,
returning the numeric year on success. -/
def yearAt (cs : List Char) : Option Nat :=
  match cs with
  | c0 :: c1 :: c2 :: c3 :: _ =>
    if (((c0 == '1') && (c1 == '9')) || ((c0 == '2') && (c1 == '0'))) && c2.isDigit && c3.isDigit then
      some (1000 * (c0.toNat - 48) + 100 * (c1.toNat - 48) + 10 * (c2.toNat - 48) + (c3.toNat - 48))
    else none
  | _ => none

/-- Embedding of `re.search(r'(19|20)\d\d', text)`: leftmost match wins. -/
def searchYear : List Char → Option Nat
  | [] => none
  | c :: rest =>
    match yearAt (c :: rest) with
    | some y => some y
    | none => searchYear rest

/-- The year-range check of `is_profitable`: entered only when `year_min` or
`year_max` is truthy; an unparseable year is let through (`except: pass`). -/
def yearHit (cfg : Option CarConfig) (year : String) : Bool :=
  if optTruthy (cfgYearMin cfg) || optTruthy (cfgYearMax cfg) then
    match searchYear year.data with
    | some y =>
      (optTruthy (cfgYearMin cfg) && decide (y < (cfgYearMin cfg).getD 0)) ||
      (optTruthy (cfgYearMax cfg) && decide ((cfgYearMax cfg).getD 0 < y))
    | none => false
  else false

/-- The final return expression of `is_profitable`: the four numeric deal
conditions. -/
def baseConds (l : CarListing) : Bool :=
  decide (0 < l.price) &&
  decide (l.price ≤ cfgMaxPrice (TARGET_CARS l.model_type)) &&
  decide (l.distance ≤ MAX_DISTANCE_MILES) &&
  decide ((cfgMinProfit (TARGET_CARS l.model_type) : Int) ≤ l.net_profit)

/-- Embedding of `CarListing.is_profitable`, early-return by early-return. -/
def is_profitable (l : CarListing) : Bool :=
  let cfg := TARGET_CARS l.model_type
  if wantedHit l.title then false
  else if estateHit l.title then false
  else if excludeHit cfg l.title then false
  else if yearHit cfg l.year then false
  else baseConds l

/-- The final URL de-duplication loop of `search_all`, with the `seen_urls`
set modelled as the list of URLs added so far. -/
def dedupAux : List String → List CarListing → List CarListing
  | _, [] => []
  | seen, d :: rest =>
    if d.url != "" && !(seen.contains d.url) then
      d :: dedupAux (d.url :: seen) rest
    else if d.url == "" then
      d :: dedupAux seen rest
    else
      dedupAux seen rest

/-- The de-duplication pass as run by `search_all` (empty `seen_urls`). -/
def dedupByUrl (ds : List CarListing) : List CarListing := dedupAux [] ds

/-- Insert a comma after every third character; the input is the reversed
digit string, so this realises Python's thousands grouping `f'{n:,}'`. -/
def grp3 : List Char → List Char
  | c1 :: c2 :: c3 :: c4 :: rest => c1 :: c2 :: c3 :: ',' :: grp3 (c4 :: rest)
  | l => l

/-- Python `f'{n:,}'` for a non-negative integer. -/
def commaFmtNat (n : Nat) : String := ⟨(grp3 (toString n).data.reverse).reverse⟩

/-- Python `f'{i:,}'` for a possibly negative integer. -/
def commaFmtInt (i : Int) : String :=
  if i < 0 then "-" ++ commaFmtNat i.natAbs else commaFmtNat i.natAbs

/-- Round-half-to-even on `ℚ` (the rounding used when formatting a float). -/
def roundHalfEven (q : ℚ) : Int :=
  let f := ⌊q⌋
  let r := q - f
  if r < 1/2 then f
  else if 1/2 < r then f + 1
  else if f % 2 = 0 then f else f + 1

/-- Python `f'{x:.1f}'` modelled on `ℚ`: one decimal digit, ties to even. -/
def fmt1 (q : ℚ) : String :=
  let n : Int := roundHalfEven (q * 10)
  let s := toString (n.natAbs / 10) ++ "." ++ toString (n.natAbs % 10)
  if n < 0 then "-" ++ s else s

/-- Embedding of `CarListing.to_dict`: the ordered key/value pairs, with the
source's f-string formatting. -/
def to_dict (l : CarListing) : List (String × String) :=
  [("Model Type", l.model_type),
   ("Title", l.title),
   ("Buy Price", "£" ++ commaFmtNat l.price),
   ("Avg UK Price", "£" ++ commaFmtNat l.avg_uk_price),
   ("UK Saving", "£" ++ commaFmtInt l.uk_saving),
   ("Expected NI Sell", "£" ++ commaFmtNat l.expected_ni_price),
   ("Avg NI Price", "£" ++ commaFmtNat l.avg_ni_price),
   ("Net Profit", "£" ++ commaFmtInt l.net_profit),
   ("Profit Margin", fmt1 l.profit_margin ++ "%"),
   ("Location", l.location),
   ("Distance (miles)", fmt1 l.distance),
   ("Year", l.year),
   ("Mileage", l.mileage),
   ("Source", l.source),
   ("URL", l.url)]

/-- State-passing form of the method call `listing.is_profitable()`: the method
body only reads attributes and assigns none, so the translated post-state is
the received object itself. -/
def is_profitable_run (l : CarListing) : Bool × CarListing := (is_profitable l, l)

/-- State-passing form of the method call `listing.to_dict()`: the body builds
a fresh dict from reads only, assigning no attribute. -/
def to_dict_run (l : CarListing) : List (String × String) × CarListing := (to_dict l, l)

/-- A distance function usable on concrete inputs (the haversine value is
irrelevant to the discrete logic; witnesses use coordinates at the origin,
where the true haversine distance is 0 as well). -/
def havZero : ℚ × ℚ → ℚ × ℚ → ℚ := fun _ _ => 0

/-- Sample candidate: a clean Peugeot 306 advert inside every limit. -/
def rawPeu : RawData :=
  { model_type := "peugeot_306_dturbo", title := "Peugeot 306 D-Turbo diesel",
    price := 3000, year := "1999", url := "http://example.org/a", coords := (0, 0) }

/-- Sample candidate: same price, model and coordinates as `rawPeu`, different
descriptive fields. -/
def rawPeuB : RawData :=
  { model_type := "peugeot_306_dturbo", title := "306 D Turbo low miles",
    price := 3000, year := "2000", url := "http://example.org/b", coords := (0, 0) }

/-- Sample candidate: a buy-request advert that meets every numeric limit. -/
def rawWanted : RawData :=
  { model_type := "peugeot_306_dturbo", title := "Wanted: Peugeot 306 D-Turbo",
    price := 3000, coords := (0, 0) }

/-- Sample candidate with unparseable price (sentinel 0). -/
def rawZeroPrice : RawData :=
  { model_type := "peugeot_306_dturbo", title := "Peugeot 306", price := 0, coords := (0, 0) }

/-- Sample candidate whose model key is not in the catalog. -/
def rawUnknown : RawData :=
  { model_type := "ford_fiesta", title := "Ford Fiesta", price := 1000, coords := (0, 0) }

/-- Sample Honda candidate with a parseable year outside the 2001-2005 range. -/
def rawHondaLate : RawData :=
  { model_type := "honda_civic_ep3_type_r", title := "Honda Civic Type R",
    price := 8000, year := "2007", coords := (0, 0) }

/-- Sample Honda candidate with an unparseable year field. -/
def rawHondaNoYear : RawData :=
  { model_type := "honda_civic_ep3_type_r", title := "Honda Civic Type R",
    price := 8000, year := "unknown", coords := (0, 0) }

/-- The buy-request sample, evaluated. -/
def exWantedL : CarListing := mkCarListing havZero rawWanted

/-- The clean Peugeot sample, evaluated. -/
def exPeuL : CarListing := mkCarListing havZero rawPeu

/-- De-dup sample: first listing of a shared non-empty URL. -/
def lstA : CarListing :=
  mkCarListing havZero { title := "first", url := "http://example.org/x", coords := (0, 0) }

/-- De-dup sample: later listing with the same non-empty URL as `lstA`. -/
def lstB : CarListing :=
  mkCarListing havZero { title := "second", url := "http://example.org/x", coords := (0, 0) }

/-- De-dup sample: empty-URL listing. -/
def lstC : CarListing :=
  mkCarListing havZero { title := "same", url := "", coords := (0, 0) }

/-- De-dup sample: a second empty-URL listing with identical title and price. -/
def lstD : CarListing :=
  mkCarListing havZero { title := "same", url := "", coords := (0, 0) }

/- ------------------------------------------------------------------ -/
/- Theorems.                                                           -/
/- ------------------------------------------------------------------ -/

/-- A successful catalog lookup returns an entry of the catalog list. -/
theorem config_mem {k : String} {c : CarConfig} (h : TARGET_CARS k = some c) :
    (k, c) ∈ TARGET_CARS_LIST := by
  unfold TARGET_CARS at h
  rw [List.lookup_eq_some_iff] at h
  obtain ⟨l₁, l₂, hs, -⟩ := h
  rw [hs]
  simp

/-- Every markup the catalog (or the missing-key default) can produce. -/
theorem markup_cases (k : String) :
    cfgMarkup (TARGET_CARS k) = 0 ∨ cfgMarkup (TARGET_CARS k) = 2700 ∨
    cfgMarkup (TARGET_CARS k) = 2800 ∨ cfgMarkup (TARGET_CARS k) = 3000 ∨
    cfgMarkup (TARGET_CARS k) = 3500 := by
  cases h : TARGET_CARS k with
  | none => left; rfl
  | some c =>
    have hm := config_mem h
    simp only [TARGET_CARS_LIST, List.mem_cons, List.not_mem_nil, or_false, Prod.mk.injEq] at hm
    rcases hm with h | h | h | h | h | h | h | h <;> rw [h.2] <;> decide

/-- No catalog markup (nor the default 0) makes the net profit exactly zero. -/
theorem netProfit_ne_zero (k : String) :
    (cfgMarkup (TARGET_CARS k) : Int) - (COSTS_PER_CAR : Int) ≠ 0 := by
  rcases markup_cases k with h | h | h | h | h <;> rw [h] <;> decide

/-- C2: for a catalog model, the constructor sets
`expected_resale_price = price + markup` and `net_profit = markup - 650`
exactly, and the net profit is the same for any two candidates of the same
model, whatever their prices. -/
theorem profit_fields_exact (hav : ℚ × ℚ → ℚ × ℚ → ℚ) (d : RawData) (cfg : CarConfig)
    (h : TARGET_CARS d.model_type = some cfg) :
    (mkCarListing hav d).expected_ni_price = d.price + cfg.ni_markup ∧
    (mkCarListing hav d).net_profit = (cfg.ni_markup : Int) - (COSTS_PER_CAR : Int) ∧
    ∀ d' : RawData, d'.model_type = d.model_type →
      (mkCarListing hav d').net_profit = (mkCarListing hav d).net_profit := by
  refine ⟨?_, ?_, ?_⟩
  · simp [mkCarListing, h, cfgMarkup]
  · simp [mkCarListing, h, cfgMarkup]
  · intro d' h'
    simp [mkCarListing, h']

/-- Witness for C2 at the concrete Peugeot candidate. -/
theorem profit_fields_exact_witness :
    (mkCarListing havZero rawPeu).expected_ni_price = 3000 + 2700 ∧
    (mkCarListing havZero rawPeu).net_profit = (2700 : Int) - 650 := by
  have h := profit_fields_exact havZero rawPeu _ rfl
  exact ⟨h.1, h.2.1⟩

/-- C3: the profit margin of an evaluated listing is 0 exactly when the price
is 0, and for a positive price it is exactly `net_profit / price * 100`. -/
theorem profit_margin_spec (hav : ℚ × ℚ → ℚ × ℚ → ℚ) (d : RawData) :
    ((mkCarListing hav d).profit_margin = 0 ↔ (mkCarListing hav d).price = 0) ∧
    (0 < (mkCarListing hav d).price →
      (mkCarListing hav d).profit_margin =
        ((mkCarListing hav d).net_profit : ℚ) / ((mkCarListing hav d).price : ℚ) * 100) := by
  constructor
  · by_cases h0 : d.price = 0
    · simp [mkCarListing, h0]
    · have hp : 0 < d.price := Nat.pos_of_ne_zero h0
      have hN := netProfit_ne_zero d.model_type
      have hmargin : (mkCarListing hav d).profit_margin =
          (((cfgMarkup (TARGET_CARS d.model_type) : Int) - (COSTS_PER_CAR : Int) : Int) : ℚ) /
            (d.price : ℚ) * 100 := by
        simp [mkCarListing, hp]
      constructor
      · intro hz
        rw [hmargin] at hz
        have : ((((cfgMarkup (TARGET_CARS d.model_type) : Int) - (COSTS_PER_CAR : Int) : Int) : ℚ) /
            (d.price : ℚ)) * 100 ≠ 0 := by
          apply mul_ne_zero
          · exact div_ne_zero (Int.cast_ne_zero.2 hN) (Nat.cast_ne_zero.2 h0)
          · norm_num
        exact absurd hz this
      · intro hz
        exact absurd hz (by simpa [mkCarListing] using h0)
  · intro hp
    have hp' : 0 < d.price := hp
    simp [mkCarListing, hp']

/-- Witness for C3: margin equation at a positive price, zero margin at
price 0. -/
theorem profit_margin_spec_witness :
    (mkCarListing havZero rawPeu).profit_margin =
      ((mkCarListing havZero rawPeu).net_profit : ℚ) /
        ((mkCarListing havZero rawPeu).price : ℚ) * 100 ∧
    (mkCarListing havZero rawZeroPrice).profit_margin = 0 :=
  ⟨(profit_margin_spec havZero rawPeu).2 (by decide),
   (profit_margin_spec havZero rawZeroPrice).1.mpr rfl⟩

/-- C4: a title containing "wanted" (case-insensitively) is always rejected
by `is_profitable`, whatever the price, distance or profit. -/
theorem wanted_always_rejected (l : CarListing)
    (h : pyContains (lowerStr l.title) "wanted" = true) :
    is_profitable l = false := by
  have hw : wantedHit l.title = true := by
    unfold wantedHit wantedKeywords
    simp only [List.any_cons, List.any_nil, Bool.or_eq_true]
    exact Or.inl h
  simp [is_profitable, hw]

/-- Witness for C4 at a concrete buy-request advert meeting every numeric
limit. -/
theorem wanted_always_rejected_witness : is_profitable exWantedL = false :=
  wanted_always_rejected exWantedL (by decide)

/-- C10: a listing whose model key is missing from the catalog gets the
default markup 0, hence net profit `-650`, and is never profitable. -/
theorem unknown_model_rejected (hav : ℚ × ℚ → ℚ × ℚ → ℚ) (d : RawData)
    (h : TARGET_CARS d.model_type = none) :
    (mkCarListing hav d).net_profit = -650 ∧
    is_profitable (mkCarListing hav d) = false := by
  have hnet : (mkCarListing hav d).net_profit = -650 := by
    simp [mkCarListing, h, cfgMarkup, COSTS_PER_CAR]
  refine ⟨hnet, ?_⟩
  have hb : baseConds (mkCarListing hav d) = false := by
    unfold baseConds
    have hm : (mkCarListing hav d).model_type = d.model_type := rfl
    rw [hm, h, hnet]
    simp [cfgMinProfit]
  unfold is_profitable
  split_ifs <;> simp [hb]

/-- Witness for C10 at a concrete unknown model key. -/
theorem unknown_model_rejected_witness :
    (mkCarListing havZero rawUnknown).net_profit = -650 ∧
    is_profitable (mkCarListing havZero rawUnknown) = false :=
  unknown_model_rejected havZero rawUnknown rfl

/-- C1 counterexample: a catalog-model listing that satisfies all four numeric
deal conditions but is still rejected (its title is a buy-request), so
`is_profitable` is not equivalent to the four conditions alone. -/
theorem is_profitable_not_only_four_conds :
    (TARGET_CARS exWantedL.model_type).isSome = true ∧
    ¬ (is_profitable exWantedL = true ↔
       (0 < exWantedL.price ∧
        exWantedL.price ≤ cfgMaxPrice (TARGET_CARS exWantedL.model_type) ∧
        exWantedL.distance ≤ MAX_DISTANCE_MILES ∧
        (cfgMinProfit (TARGET_CARS exWantedL.model_type) : Int) ≤ exWantedL.net_profit)) := by
  decide

/-- C1 (amended): for a catalog-model listing that none of the title-keyword
checks (buy-request, body-style, per-model exclusions) nor the year check
rejects, `is_profitable` is true exactly when the four deal conditions hold:
positive price, price within the model ceiling, distance within 300 miles,
and net profit at least the model minimum. -/
theorem is_profitable_iff_four_conds (l : CarListing) (cfg : CarConfig)
    (hc : TARGET_CARS l.model_type = some cfg)
    (hw : wantedHit l.title = false)
    (he : estateHit l.title = false)
    (hx : excludeHit (TARGET_CARS l.model_type) l.title = false)
    (hy : yearHit (TARGET_CARS l.model_type) l.year = false) :
    is_profitable l = true ↔
      (0 < l.price ∧ l.price ≤ cfg.max_price ∧
       l.distance ≤ MAX_DISTANCE_MILES ∧
       (cfg.min_profit : Int) ≤ l.net_profit) := by
  simp only [is_profitable, hw, he, hx, hy, if_false]
  simp [baseConds, hc, cfgMaxPrice, cfgMinProfit, and_assoc]

/-- Witness for C1's amended theorem at the clean Peugeot sample. -/
theorem is_profitable_iff_four_conds_witness : is_profitable exPeuL = true := by
  have h := is_profitable_iff_four_conds exPeuL _ rfl (by decide) (by decide) (by decide) (by decide)
  exact h.mpr (by decide)

/-- C5: with a parseable four-digit year lying outside a configured year
bound the listing is rejected; with no parseable year the year check plays
no part at all in the decision. -/
theorem year_check_spec (l : CarListing) :
    (∀ y : Nat, searchYear l.year.data = some y →
      ((optTruthy (cfgYearMin (TARGET_CARS l.model_type)) = true ∧
          y < (cfgYearMin (TARGET_CARS l.model_type)).getD 0) ∨
       (optTruthy (cfgYearMax (TARGET_CARS l.model_type)) = true ∧
          (cfgYearMax (TARGET_CARS l.model_type)).getD 0 < y)) →
      is_profitable l = false) ∧
    (searchYear l.year.data = none →
      is_profitable l =
        (!wantedHit l.title && !estateHit l.title &&
         !excludeHit (TARGET_CARS l.model_type) l.title && baseConds l)) := by
  constructor
  · intro y hy hviol
    have hyear : yearHit (TARGET_CARS l.model_type) l.year = true := by
      unfold yearHit
      rcases hviol with ⟨h1, h2⟩ | ⟨h1, h2⟩
      · rw [if_pos (by rw [h1]; rfl)]
        rw [hy]
        simp [h1, h2]
      · rw [if_pos (by rw [h1]; simp)]
        rw [hy]
        simp [h1, h2]
    simp [is_profitable, hyear]
  · intro hnone
    have hyear : yearHit (TARGET_CARS l.model_type) l.year = false := by
      unfold yearHit
      rw [hnone]
      simp
    cases hw : wantedHit l.title <;> cases he : estateHit l.title <;>
      cases hx : excludeHit (TARGET_CARS l.model_type) l.title <;>
      simp [is_profitable, hw, he, hx, hyear]

/-- Witness for C5: a Honda EP3 advert from 2007 is rejected; one with an
unparseable year is decided by the remaining checks alone. -/
theorem year_check_spec_witness :
    is_profitable (mkCarListing havZero rawHondaLate) = false ∧
    is_profitable (mkCarListing havZero rawHondaNoYear) =
      (!wantedHit (mkCarListing havZero rawHondaNoYear).title &&
       !estateHit (mkCarListing havZero rawHondaNoYear).title &&
       !excludeHit (TARGET_CARS (mkCarListing havZero rawHondaNoYear).model_type)
          (mkCarListing havZero rawHondaNoYear).title &&
       baseConds (mkCarListing havZero rawHondaNoYear)) :=
  ⟨(year_check_spec (mkCarListing havZero rawHondaLate)).1 2007 (by decide) (by decide),
   (year_check_spec (mkCarListing havZero rawHondaNoYear)).2 (by decide)⟩

/-- Empty-URL listings pass through the de-dup loop untouched, whatever has
been seen already. -/
theorem dedupAux_filter_empty (ds : List CarListing) : ∀ seen : List String,
    (dedupAux seen ds).filter (fun d => d.url == "") = ds.filter (fun d => d.url == "") := by
  induction ds with
  | nil => intro seen; rfl
  | cons d rest ih =>
    intro seen
    by_cases hurl : d.url = ""
    · simp [dedupAux, hurl, List.filter_cons, ih]
    · by_cases hseen : d.url ∈ seen
      · simp [dedupAux, hurl, hseen, List.filter_cons, ih]
      · simp [dedupAux, hurl, hseen, List.filter_cons, ih]

/-- For a non-empty URL, the de-dup loop keeps exactly the first listing with
that URL in iteration order (none at all if the URL was already seen). -/
theorem dedupAux_filter_url (u : String) (hu : u ≠ "") (ds : List CarListing) :
    ∀ seen : List String,
    (dedupAux seen ds).filter (fun d => d.url == u) =
      if u ∈ seen then [] else (ds.filter (fun d => d.url == u)).take 1 := by
  induction ds with
  | nil => intro seen; simp [dedupAux]
  | cons d rest ih =>
    intro seen
    by_cases hurl : d.url = ""
    · have hne : ¬ ("" = u) := fun h => hu h.symm
      simp [dedupAux, hurl, List.filter_cons, hne, ih]
    · by_cases hseen : d.url ∈ seen
      · by_cases hdu : d.url = u
        · subst hdu
          simp [dedupAux, hurl, hseen, ih]
        · have hud : ¬ (u = d.url) := fun h => hdu h.symm
          simp [dedupAux, hurl, hseen, List.filter_cons, hdu, hud, ih]
      · by_cases hdu : d.url = u
        · subst hdu
          simp [dedupAux, hurl, hseen, List.filter_cons, ih]
        · have hud : ¬ (u = d.url) := fun h => hdu h.symm
          simp [dedupAux, hurl, hseen, List.filter_cons, hdu, hud, ih]

/-- The de-dup loop only ever drops elements, in place: its output is a
sublist of its input. -/
theorem dedupAux_sublist (ds : List CarListing) : ∀ seen : List String,
    List.Sublist (dedupAux seen ds) ds := by
  induction ds with
  | nil => intro seen; simp [dedupAux]
  | cons d rest ih =>
    intro seen
    by_cases hurl : d.url = ""
    · simpa [dedupAux, hurl] using List.Sublist.cons₂ d (ih seen)
    · by_cases hseen : d.url ∈ seen
      · simpa [dedupAux, hurl, hseen] using List.Sublist.cons d (ih seen)
      · simpa [dedupAux, hurl, hseen] using List.Sublist.cons₂ d (ih (d.url :: seen))

/-- C6: the final de-duplication pass keeps, for each non-empty URL, exactly
the first listing with that URL in iteration order and drops the later ones;
every empty-URL listing is retained; and the output preserves iteration
order (it is a sublist of the input). -/
theorem dedup_keeps_first_per_url (ds : List CarListing) :
    (dedupByUrl ds).filter (fun d => d.url == "") = ds.filter (fun d => d.url == "") ∧
    (∀ u : String, u ≠ "" →
      (dedupByUrl ds).filter (fun d => d.url == u) =
        (ds.filter (fun d => d.url == u)).take 1) ∧
    List.Sublist (dedupByUrl ds) ds := by
  refine ⟨dedupAux_filter_empty ds [], ?_, dedupAux_sublist ds []⟩
  intro u hu
  have h := dedupAux_filter_url u hu ds []
  simpa using h

/-- Witness for C6: of two listings sharing a non-empty URL only the first
survives, while two identical empty-URL listings are both kept. -/
theorem dedup_keeps_first_per_url_witness :
    (dedupByUrl [lstA, lstB, lstC, lstD]).filter
        (fun d => d.url == "http://example.org/x") = [lstA] ∧
    (dedupByUrl [lstA, lstB, lstC, lstD]).filter (fun d => d.url == "") = [lstC, lstD] := by
  have h := dedup_keeps_first_per_url [lstA, lstB, lstC, lstD]
  exact ⟨(h.2.1 "http://example.org/x" (by decide)).trans (by decide), h.1.trans (by decide)⟩

/-- Every listing the de-dup loop emits with a non-empty URL has a URL that
was not in the incoming seen set. -/
theorem dedupAux_not_seen (ds : List CarListing) : ∀ seen : List String,
    ∀ b ∈ dedupAux seen ds, b.url ≠ "" → ¬ b.url ∈ seen := by
  induction ds with
  | nil => intro seen b hb; simp [dedupAux] at hb
  | cons d rest ih =>
    intro seen b hb hbne
    by_cases hurl : d.url = ""
    · rw [show dedupAux seen (d :: rest) = d :: dedupAux seen rest by
        simp [dedupAux, hurl]] at hb
      rcases List.mem_cons.mp hb with rfl | hb'
      · exact absurd hurl hbne
      · exact ih seen b hb' hbne
    · by_cases hseen : d.url ∈ seen
      · rw [show dedupAux seen (d :: rest) = dedupAux seen rest by
          simp [dedupAux, hurl, hseen]] at hb
        exact ih seen b hb hbne
      · rw [show dedupAux seen (d :: rest) = d :: dedupAux (d.url :: seen) rest by
          simp [dedupAux, hurl, hseen]] at hb
        rcases List.mem_cons.mp hb with rfl | hb'
        · exact hseen
        · intro hmem
          exact ih (d.url :: seen) b hb' hbne (List.mem_cons_of_mem _ hmem)

/-- Distinct output positions of the de-dup loop never repeat a non-empty
URL. -/
theorem dedupAux_pairwise (ds : List CarListing) : ∀ seen : List String,
    (dedupAux seen ds).Pairwise (fun a b => a.url ≠ "" → a.url ≠ b.url) := by
  induction ds with
  | nil => intro seen; simp [dedupAux]
  | cons d rest ih =>
    intro seen
    by_cases hurl : d.url = ""
    · rw [show dedupAux seen (d :: rest) = d :: dedupAux seen rest by
        simp [dedupAux, hurl]]
      exact List.Pairwise.cons (fun b _ hne => absurd hurl hne) (ih seen)
    · by_cases hseen : d.url ∈ seen
      · rw [show dedupAux seen (d :: rest) = dedupAux seen rest by
          simp [dedupAux, hurl, hseen]]
        exact ih seen
      · rw [show dedupAux seen (d :: rest) = d :: dedupAux (d.url :: seen) rest by
          simp [dedupAux, hurl, hseen]]
        refine List.Pairwise.cons ?_ (ih (d.url :: seen))
        intro b hb hne heq
        exact dedupAux_not_seen rest (d.url :: seen) b hb (heq ▸ hne)
          (heq ▸ List.mem_cons_self d.url seen)

/-- On a list whose non-empty URLs are fresh and pairwise distinct, the
de-dup loop is the identity. -/
theorem dedupAux_eq_self (ds : List CarListing) : ∀ seen : List String,
    (∀ d ∈ ds, d.url ≠ "" → ¬ d.url ∈ seen) →
    ds.Pairwise (fun a b => a.url ≠ "" → a.url ≠ b.url) →
    dedupAux seen ds = ds := by
  induction ds with
  | nil => intro seen _ _; rfl
  | cons d rest ih =>
    intro seen h1 h2
    by_cases hurl : d.url = ""
    · rw [show dedupAux seen (d :: rest) = d :: dedupAux seen rest by
        simp [dedupAux, hurl]]
      rw [ih seen (fun x hx => h1 x (List.mem_cons_of_mem d hx)) h2.of_cons]
    · have hseen : ¬ d.url ∈ seen := h1 d (List.mem_cons_self d rest) hurl
      rw [show dedupAux seen (d :: rest) = d :: dedupAux (d.url :: seen) rest by
        simp [dedupAux, hurl, hseen]]
      have hfresh : ∀ x ∈ rest, x.url ≠ "" → ¬ x.url ∈ d.url :: seen := by
        intro x hx hxne hmem
        rcases List.mem_cons.mp hmem with heq | hmem'
        · exact (List.rel_of_pairwise_cons h2 hx) hurl heq.symm
        · exact h1 x (List.mem_cons_of_mem d hx) hxne hmem'
      rw [ih (d.url :: seen) hfresh h2.of_cons]

/-- C7: the final URL de-duplication pass is idempotent. -/
theorem dedup_idempotent (ds : List CarListing) :
    dedupByUrl (dedupByUrl ds) = dedupByUrl ds :=
  dedupAux_eq_self (dedupByUrl ds) []
    (fun d _ hne hmem => by simp at hmem)
    (dedupAux_pairwise ds [])

/-- A `find?` whose predicate first fires at index `i` returns the element at
index `i`. -/
theorem find_eq_get_of_first {α : Type} (p : α → Bool) (l : List α) :
    ∀ i (h : i < l.length),
    p (l.get ⟨i, h⟩) = true →
    (∀ j (hj : j < l.length), j < i → p (l.get ⟨j, hj⟩) = false) →
    l.find? p = some (l.get ⟨i, h⟩) := by
  induction l with
  | nil => intro i h; exact absurd h (Nat.not_lt_zero i)
  | cons a t ih =>
    intro i h hp hfirst
    cases i with
    | zero =>
      simp only [List.get] at hp ⊢
      rw [List.find?_cons_of_pos t hp]
    | succ n =>
      have ha : p a = false :=
        hfirst 0 (Nat.succ_pos _) (Nat.succ_pos _)
      rw [List.find?_cons_of_neg t (by simp [ha])]
      simp only [List.get] at hp ⊢
      exact ih n (Nat.lt_of_succ_lt_succ h) hp
        (fun j hj hlt => hfirst (j + 1) (Nat.succ_lt_succ hj) (Nat.succ_lt_succ hlt))

/-- The substring test agrees with `List.IsInfix`. -/
theorem containsAux_iff_infix (p : List Char) : ∀ t : List Char,
    containsAux p t = true ↔ p <:+: t := by
  intro t
  induction t with
  | nil => simp [containsAux, List.isEmpty_iff]
  | cons a t ih =>
    simp only [containsAux, strPrefix, Bool.or_eq_true, List.isPrefixOf_iff_prefix, ih]
    exact (List.infix_cons_iff).symm

/-- A non-empty whitespace-free occurrence survives the removal of leading
whitespace. -/
theorem infix_dropWhile_of_no_space (p : List Char) (hp : p ≠ [])
    (hws : ∀ c ∈ p, isPySpace c = false) :
    ∀ t : List Char, p <:+: t → p <:+: t.dropWhile isPySpace := by
  intro t
  induction t with
  | nil => intro h; simpa using h
  | cons a t ih =>
    intro h
    by_cases ha : isPySpace a = true
    · rw [List.dropWhile_cons_of_pos ha]
      rcases List.infix_cons_iff.mp h with hpre | hinf
      · obtain ⟨c, p', rfl⟩ : ∃ c p', p = c :: p' := by
          cases p with
          | nil => exact absurd rfl hp
          | cons c p' => exact ⟨c, p', rfl⟩
        have hca : c = a := (List.cons_prefix_cons.mp hpre).1
        have hc := hws c (List.mem_cons_self c p')
        rw [hca, ha] at hc
        cases hc
      · exact ih hinf
    · rw [List.dropWhile_cons_of_neg ha]
      exact h

/-- Stripping surrounding whitespace does not change whether a non-empty
whitespace-free string occurs as a substring. -/
theorem pyContains_pyStrip (t c : String) (hp : c.data ≠ [])
    (hws : ∀ ch ∈ c.data, isPySpace ch = false) :
    pyContains (pyStrip t) c = pyContains t c := by
  unfold pyContains pyStrip
  rw [Bool.eq_iff_iff, containsAux_iff_infix, containsAux_iff_infix]
  have hx : (t.data.dropWhile isPySpace) <:+ t.data := List.dropWhile_suffix _
  constructor
  · intro h
    have h2 : ((t.data.dropWhile isPySpace).reverse.dropWhile isPySpace).reverse <+:
        t.data.dropWhile isPySpace := by
      have := List.reverse_prefix.mpr
        (List.dropWhile_suffix (l := (t.data.dropWhile isPySpace).reverse) isPySpace)
      rwa [List.reverse_reverse] at this
    exact (h.trans h2.isInfix).trans hx.isInfix
  · intro h
    have hlead : c.data <:+: t.data.dropWhile isPySpace :=
      infix_dropWhile_of_no_space c.data hp hws t.data h
    have hrev : c.data.reverse <:+: (t.data.dropWhile isPySpace).reverse :=
      List.reverse_infix.mpr hlead
    have hpr : c.data.reverse ≠ [] := by simpa using hp
    have hwsr : ∀ ch ∈ c.data.reverse, isPySpace ch = false := by
      intro ch hch
      exact hws ch (List.mem_reverse.mp hch)
    have htrail := infix_dropWhile_of_no_space c.data.reverse hpr hwsr
      (t.data.dropWhile isPySpace).reverse hrev
    have := List.reverse_infix.mpr htrail
    simpa using this

/-- Every city name in the table is non-empty and whitespace-free. -/
theorem locations_wordlike :
    ∀ e ∈ LOCATIONS, e.1.data ≠ [] ∧ ∀ ch ∈ e.1.data, isPySpace ch = false := by
  decide

/-- C8: the geocoder is total; when the lower-cased input contains none of
the known city names as a substring it returns the fixed Liverpool origin,
and otherwise it returns the coordinates of the first city, in table order,
whose name occurs in the lower-cased input. -/
theorem geocode_spec (s : String) :
    ((∀ e ∈ LOCATIONS, pyContains (lowerStr s) e.1 = false) →
      geocode_location s = LIVERPOOL_COORDS) ∧
    (∀ i (h : i < LOCATIONS.length),
      pyContains (lowerStr s) (LOCATIONS.get ⟨i, h⟩).1 = true →
      (∀ j (hj : j < LOCATIONS.length), j < i →
        pyContains (lowerStr s) (LOCATIONS.get ⟨j, hj⟩).1 = false) →
      geocode_location s = (LOCATIONS.get ⟨i, h⟩).2) := by
  have hstrip : ∀ e ∈ LOCATIONS,
      pyContains (pyStrip (lowerStr s)) e.1 = pyContains (lowerStr s) e.1 := by
    intro e he
    exact pyContains_pyStrip (lowerStr s) e.1 (locations_wordlike e he).1
      (locations_wordlike e he).2
  constructor
  · intro hnone
    have hfind : LOCATIONS.find? (fun e => pyContains (pyStrip (lowerStr s)) e.1) = none :=
      List.find?_eq_none.mpr (fun e he => by simp [hstrip e he, hnone e he])
    simp [geocode_location, hfind]
  · intro i h hp hfirst
    have hp' : pyContains (pyStrip (lowerStr s)) (LOCATIONS.get ⟨i, h⟩).1 = true := by
      rw [hstrip _ (LOCATIONS.get_mem i h)]
      exact hp
    have hfirst' : ∀ j (hj : j < LOCATIONS.length), j < i →
        pyContains (pyStrip (lowerStr s)) (LOCATIONS.get ⟨j, hj⟩).1 = false := by
      intro j hj hlt
      rw [hstrip _ (LOCATIONS.get_mem j hj)]
      exact hfirst j hj hlt
    have hfind := find_eq_get_of_first
      (fun e => pyContains (pyStrip (lowerStr s)) e.1) LOCATIONS i h hp' hfirst'
    simp [geocode_location, hfind]

/-- Witness for C8: an input matching the first city of the table, and an
input matching none. -/
theorem geocode_spec_witness :
    geocode_location "MANCHESTER" = ((53.4808 : ℚ), (-2.2426 : ℚ)) ∧
    geocode_location "Belfast" = LIVERPOOL_COORDS := by
  constructor
  · exact (geocode_spec "MANCHESTER").2 0 (by decide) (by decide)
      (fun j hj hlt => absurd hlt (Nat.not_lt_zero j))
  · exact (geocode_spec "Belfast").1 (by decide)

/-- C9: every derived field of an evaluated listing is fixed at construction
by the candidate's price, model key and coordinates alone; and the method
bodies of `is_profitable` and `to_dict` perform no attribute writes, so the
translated post-state of a call is the listing itself and repeated calls
return equal results. -/
theorem listing_immutable (hav : ℚ × ℚ → ℚ × ℚ → ℚ) (d d' : RawData)
    (hp : d.price = d'.price) (hm : d.model_type = d'.model_type)
    (hc : d.coords = d'.coords) :
    ((mkCarListing hav d).ni_markup = (mkCarListing hav d').ni_markup ∧
     (mkCarListing hav d).expected_ni_price = (mkCarListing hav d').expected_ni_price ∧
     (mkCarListing hav d).gross_profit = (mkCarListing hav d').gross_profit ∧
     (mkCarListing hav d).net_profit = (mkCarListing hav d').net_profit ∧
     (mkCarListing hav d).profit_margin = (mkCarListing hav d').profit_margin ∧
     (mkCarListing hav d).avg_uk_price = (mkCarListing hav d').avg_uk_price ∧
     (mkCarListing hav d).avg_ni_price = (mkCarListing hav d').avg_ni_price ∧
     (mkCarListing hav d).uk_saving = (mkCarListing hav d').uk_saving ∧
     (mkCarListing hav d).ni_margin = (mkCarListing hav d').ni_margin ∧
     (mkCarListing hav d).distance = (mkCarListing hav d').distance) ∧
    ((is_profitable_run (mkCarListing hav d)).2 = mkCarListing hav d ∧
     (to_dict_run (mkCarListing hav d)).2 = mkCarListing hav d ∧
     (is_profitable_run ((is_profitable_run (mkCarListing hav d)).2)).1 =
       (is_profitable_run (mkCarListing hav d)).1 ∧
     (to_dict_run ((to_dict_run (mkCarListing hav d)).2)).1 =
       (to_dict_run (mkCarListing hav d)).1) := by
  refine ⟨?_, rfl, rfl, rfl, rfl⟩
  refine ⟨?_, ?_, ?_, ?_, ?_, ?_, ?_, ?_, ?_, ?_⟩ <;>
    simp [mkCarListing, hp, hm, hc]

/-- Witness for C9: two Peugeot candidates differing only in descriptive
fields get the same net profit, and a method call leaves the listing as it
was. -/
theorem listing_immutable_witness :
    (mkCarListing havZero rawPeu).net_profit = (mkCarListing havZero rawPeuB).net_profit ∧
    (is_profitable_run (mkCarListing havZero rawPeu)).2 = mkCarListing havZero rawPeu := by
  have h := listing_immutable havZero rawPeu rawPeuB rfl rfl rfl
  exact ⟨h.1.2.2.2.1, h.2.1⟩
